import Mathlib

/-!
Verification development for the ignition activity-based privacy protection
system.  The definitions below are a shallow embedding of the Python sources
`scripts/activity_detector.py`, `scripts/privacy_state_manager.py` and
`scripts/process_monitor.py`: Python floats are modelled as rationals (ℚ),
Python lists as Lean lists, Python dicts keyed by pid as functions
`Int → Option _`, and the external regex engine (`re.search` on user-supplied
"regex:" rules) as an uninterpreted boolean oracle passed explicitly.
-/

/-- `ActivityType` enum from activity_detector.py. -/
inductive ActivityType
  | pip_install
  | pip_upgrade
  | git_clone
  | git_pull
  | extension_update
  | package_install
  | web_download
  | unknown
  | suspicious
deriving DecidableEq, Repr

/-- `PolicyAction` enum from activity_detector.py. -/
inductive PolicyAction
  | allow_unrestricted
  | allow_with_monitoring
  | strict_allowlist
  | emergency_review
  | block_all
deriving DecidableEq, Repr

/-- `ConfidenceThresholds.HIGH_CONFIDENCE`. -/
def HIGH_CONFIDENCE : ℚ := 9/10

/-- `ConfidenceThresholds.MEDIUM_CONFIDENCE`. -/
def MEDIUM_CONFIDENCE : ℚ := 7/10

/-- `ConfidenceThresholds.LOW_CONFIDENCE`. -/
def LOW_CONFIDENCE : ℚ := 1/2

/-- `ConfidenceThresholds.SUSPICIOUS_THRESHOLD`. -/
def SUSPICIOUS_THRESHOLD : ℚ := 3/10

/-- `ConfidenceThresholds.get_policy_action` from activity_detector.py. -/
def get_policy_action (confidence : ℚ) : PolicyAction :=
  if confidence ≥ HIGH_CONFIDENCE then .allow_unrestricted
  else if confidence ≥ MEDIUM_CONFIDENCE then .allow_with_monitoring
  else if confidence ≥ LOW_CONFIDENCE then .strict_allowlist
  else if confidence ≥ SUSPICIOUS_THRESHOLD then .emergency_review
  else .block_all

/-- Permissiveness rank of a policy action: larger means more permissive.
Used to express that the confidence-to-policy map is monotone. -/
def policy_rank : PolicyAction → ℕ
  | .block_all => 0
  | .emergency_review => 1
  | .strict_allowlist => 2
  | .allow_with_monitoring => 3
  | .allow_unrestricted => 4

/-! ### String matching helpers (`ActivityPattern._matches_pattern` and friends) -/

/-- Is the first list of characters a prefix of the second (Python
`str.startswith`, and the building block of substring search)? -/
def prefix_chars : List Char → List Char → Bool
  | [], _ => true
  | _ :: _, [] => false
  | a :: as, b :: bs => a == b && prefix_chars as bs

/-- Python `needle in hay` substring containment on characters. -/
def contains_chars (needle : List Char) : List Char → Bool
  | [] => prefix_chars needle []
  | c :: t => prefix_chars needle (c :: t) || contains_chars needle t

/-- Python `str.lower()` restricted to the ASCII strings the system handles. -/
def lower_chars (s : String) : List Char := s.toList.map Char.toLower

/-- Python `text.split('/')[-1]`: the characters after the last slash. -/
def basename_chars (t : List Char) : List Char :=
  (t.reverse.takeWhile (fun c => c != '/')).reverse

/-- Python `pattern[6:]` used to strip the "regex:" marker. -/
def drop_chars (n : Nat) (s : String) : String := String.mk (s.toList.drop n)

/-- The non-regex branch of `ActivityPattern._matches_pattern`:
case-insensitive substring match, else basename equality / prefix match when
the text contains a path separator. -/
def plain_match (pattern text : String) : Bool :=
  let p := lower_chars pattern
  let t := lower_chars text
  if contains_chars p t then true
  else if t.contains '/' then
    let b := basename_chars t
    p == b || prefix_chars p b
  else false

/-- `ActivityPattern._matches_pattern`.  The external regex engine
(`re.search` with IGNORECASE, returning False on `re.error`) is modelled by
the oracle `rx` applied to the pattern with its "regex:" marker stripped. -/
def matches_pattern (rx : String → String → Bool) (pattern text : String) : Bool :=
  if prefix_chars ("regex:".toList) pattern.toList then
    rx (drop_chars 6 pattern) text
  else plain_match pattern text

/-- Python `\s` whitespace class. -/
def is_py_space (c : Char) : Bool :=
  c == ' ' || c == '\t' || c == '\n' || c == '\r' || c == '\x0b' || c == '\x0c'

/-- Character class `[a-zA-Z0-9_-]` of the `install_specific_package` regex. -/
def is_pkg_char (c : Char) : Bool :=
  (97 ≤ c.toNat && c.toNat ≤ 122) || (65 ≤ c.toNat && c.toNat ≤ 90) ||
    (48 ≤ c.toNat && c.toNat ≤ 57) || c == '_' || c == '-'

/-- After one whitespace: skip further whitespace, then require `[a-zA-Z0-9_-]`. -/
def rest_spaces_pkg : List Char → Bool
  | [] => false
  | c :: t => if is_py_space c then rest_spaces_pkg t else is_pkg_char c

/-- `\s+[a-zA-Z0-9_-]+`: at least one whitespace then at least one word char. -/
def spaces_then_pkg : List Char → Bool
  | [] => false
  | c :: t => is_py_space c && rest_spaces_pkg t

/-- `re.search(r'install\s+[a-zA-Z0-9_-]+', cmdline)` from
`ActivityPattern._check_modifier`, modelled concretely: some suffix of the
text starts with "install" followed by whitespace and a package token. -/
def search_install_pkg : List Char → Bool
  | [] => false
  | c :: t =>
    (prefix_chars ("install".toList) (c :: t) && spaces_then_pkg ((c :: t).drop 7))
      || search_install_pkg t

/-! ### Process snapshots and activity patterns -/

/-- `ProcessInfo` dataclass from process_monitor.py. -/
structure ProcessInfo where
  pid : Int
  ppid : Int
  command : String
  cmdline : List String
  cwd : String
  start_time : ℚ
  uid : Int
  gid : Int
deriving DecidableEq, Repr

/-- `ProcessInfo.full_cmdline`: `' '.join(self.cmdline)`. -/
def ProcessInfo.full_cmdline (p : ProcessInfo) : String :=
  String.intercalate " " p.cmdline

/-- `ActivityPattern` from activity_detector.py (the fields its constructor
reads out of the pattern configuration). -/
structure ActivityPattern where
  activity_type : ActivityType
  command_patterns : List String
  arg_patterns : List String
  cwd_patterns : List String
  parent_patterns : List String
  allowed_domains : List String
  base_confidence : ℚ
  confidence_modifiers : List (String × ℚ)
  duration_estimate : Int
  risk_factors : List String
deriving DecidableEq, Repr

/-- `ActivityPattern._check_modifier`. -/
def check_modifier (modifier : String) (proc : ProcessInfo) (cmdline : String) : Bool :=
  if modifier == "has_version_flag" then
    ["--version", "-V", "version"].any (fun f => contains_chars f.toList cmdline.toList)
  else if modifier == "has_help_flag" then
    ["--help", "-h", "help"].any (fun f => contains_chars f.toList cmdline.toList)
  else if modifier == "from_comfyui_directory" then
    contains_chars ("/ComfyUI".toList) proc.cwd.toList
  else if modifier == "install_specific_package" then
    search_install_pkg cmdline.toList
  else if modifier == "suspicious_url" then
    [".tk", ".ml", ".ga", ".cf"].any (fun tld => contains_chars tld.toList cmdline.toList)
  else if modifier == "uses_sudo" then
    contains_chars ("sudo".toList) cmdline.toList
  else false

/-- The first command-pattern loop of `ActivityPattern.match`: does any
command rule match the process command?  (The loop adds the 0.3 weight at
most once, so `any` is an exact model.) -/
def ActivityPattern.command_loop_match (rx : String → String → Bool)
    (pat : ActivityPattern) (proc : ProcessInfo) : Bool :=
  pat.command_patterns.any (fun p => matches_pattern rx p proc.command)

/-- The "special case for pip" interpreter exemption in
`ActivityPattern.match`: some command rule mentions "python", the command
matches "python", and some argv token contains "pip". -/
def ActivityPattern.interpreter_exemption (rx : String → String → Bool)
    (pat : ActivityPattern) (proc : ProcessInfo) : Bool :=
  pat.command_patterns.any (fun cmd => contains_chars ("python".toList) cmd.toList) &&
    matches_pattern rx "python" proc.command &&
    proc.cmdline.any (fun arg => contains_chars ("pip".toList) arg.toList)

/-- `ActivityPattern.match` (named `match_proc` because `match` is a Lean
keyword): None when no command rule and no exemption fires, otherwise the
additive score (command 0.3, each matching arg rule 0.3, each matching cwd
rule 0.2, each ancestor with a matching parent rule 0.2, each true modifier
its weight) multiplied by the base confidence and clamped to [0,1]. -/
def ActivityPattern.match_proc (rx : String → String → Bool)
    (pat : ActivityPattern) (proc : ProcessInfo)
    (lineage : List ProcessInfo) : Option ℚ :=
  let command_match :=
    pat.command_loop_match rx proc || pat.interpreter_exemption rx proc
  if !command_match then none
  else
    let cmdline_str := proc.full_cmdline
    let c0 : ℚ := 0 + 3/10
    let c1 := pat.arg_patterns.foldl
      (fun acc p => if matches_pattern rx p cmdline_str then acc + 3/10 else acc) c0
    let c2 := pat.cwd_patterns.foldl
      (fun acc p => if matches_pattern rx p proc.cwd then acc + 1/5 else acc) c1
    let c3 := lineage.foldl
      (fun acc anc =>
        if pat.parent_patterns.any (fun p => matches_pattern rx p anc.command)
        then acc + 1/5 else acc) c2
    let c4 := pat.confidence_modifiers.foldl
      (fun acc m => if check_modifier m.1 proc cmdline_str then acc + m.2 else acc) c3
    some (min 1 (max 0 (c4 * pat.base_confidence)))

/-! ### Default activity patterns (`ActivityDetector._create_default_patterns`) -/

/-- Default `pip_install` pattern. -/
def pip_install_pattern : ActivityPattern :=
  { activity_type := .pip_install
    command_patterns := ["pip", "pip3", "python -m pip"]
    arg_patterns := ["install"]
    cwd_patterns := []
    parent_patterns := []
    allowed_domains := ["pypi.org", "pypi.python.org", "files.pythonhosted.org"]
    base_confidence := 9/10
    confidence_modifiers :=
      [("install_specific_package", 1/10), ("from_comfyui_directory", 1/20)]
    duration_estimate := 180
    risk_factors := [] }

/-- Default `git_clone` pattern. -/
def git_clone_pattern : ActivityPattern :=
  { activity_type := .git_clone
    command_patterns := ["git"]
    arg_patterns := ["clone"]
    cwd_patterns := []
    parent_patterns := []
    allowed_domains := ["github.com", "gitlab.com", "bitbucket.org"]
    base_confidence := 4/5
    confidence_modifiers := [("from_comfyui_directory", 1/10)]
    duration_estimate := 120
    risk_factors := [] }

/-- Default `extension_update` pattern. -/
def extension_update_pattern : ActivityPattern :=
  { activity_type := .extension_update
    command_patterns := ["python", "python3"]
    arg_patterns := []
    cwd_patterns := ["/ComfyUI/custom_nodes"]
    parent_patterns := []
    allowed_domains := ["github.com", "pypi.org"]
    base_confidence := 17/20
    confidence_modifiers := []
    duration_estimate := 240
    risk_factors := [] }

/-- The built-in default pattern list, in dict insertion order. -/
def default_patterns : List ActivityPattern :=
  [pip_install_pattern, git_clone_pattern, extension_update_pattern]

/-! ### The activity classifier (`ActivityDetector.detect_activity`) -/

/-- `DetectedActivity` dataclass (the free-form diagnostic `context` dict is
omitted: it carries no behavior consumed by the system). -/
structure DetectedActivity where
  activity_type : ActivityType
  confidence : ℚ
  policy_action : PolicyAction
  process_info : ProcessInfo
  timestamp : ℚ
  duration_estimate : Int
  allowed_domains : List String
  risk_factors : List String
deriving DecidableEq, Repr

/-- The best-match loop of `detect_activity`: track the highest strictly
improving confidence together with its activity type and pattern. -/
def best_pattern_fold (rx : String → String → Bool)
    (patterns : List ActivityPattern) (proc : ProcessInfo)
    (lineage : List ProcessInfo) :
    Option ActivityType × ℚ × Option ActivityPattern :=
  patterns.foldl
    (fun acc pat =>
      match pat.match_proc rx proc lineage with
      | some c =>
        if c > acc.2.1 then (some pat.activity_type, c, some pat) else acc
      | none => acc)
    ((none : Option ActivityType), (0 : ℚ), (none : Option ActivityPattern))

/-- `ActivityDetector.detect_activity`: best pattern match, the 0.1 floor,
the 0.8 fallback dampening, the confidence-to-policy map and the risk
factors.  `should_fb` is the Health Monitor's `should_fallback()` answer at
the time of the call. -/
def detect_activity (rx : String → String → Bool)
    (patterns : List ActivityPattern) (should_fb : Bool) (now : ℚ)
    (proc : ProcessInfo) (lineage : List ProcessInfo) :
    Option DetectedActivity :=
  let best := best_pattern_fold rx patterns proc lineage
  match best.1 with
  | none => none
  | some best_match =>
    if best.2.1 < 1/10 then none
    else
      let adjusted := if should_fb then best.2.1 * (4/5) else best.2.1
      some
        { activity_type := best_match
          confidence := adjusted
          policy_action := get_policy_action adjusted
          process_info := proc
          timestamp := now
          duration_estimate :=
            match best.2.2 with
            | some p => p.duration_estimate
            | none => 300
          allowed_domains :=
            match best.2.2 with
            | some p => p.allowed_domains
            | none => []
          risk_factors :=
            (match best.2.2 with
             | some p => p.risk_factors
             | none => []) ++
            (if contains_chars ("sudo".toList) proc.full_cmdline.toList
             then ["elevated_privileges"] else []) ++
            (if proc.uid = 0 then ["running_as_root"] else []) }

/-! ### The health monitor (`SmartHealthCheck`) -/

/-- `SmartHealthCheck` state: the three window lengths and the two sample
lists (timestamp, success, confidence) and (timestamp, error type). -/
structure SmartHealthCheck where
  short_window : ℚ
  medium_window : ℚ
  long_window : ℚ
  detection_history : List (ℚ × Bool × ℚ)
  error_history : List (ℚ × String)
deriving DecidableEq, Repr

/-- A freshly constructed `SmartHealthCheck` (default windows 300/900/3600,
empty histories). -/
def SmartHealthCheck.init : SmartHealthCheck :=
  { short_window := 300, medium_window := 900, long_window := 3600
    detection_history := [], error_history := [] }

/-- `SmartHealthCheck._cleanup_old_entries`: drop samples at or before
`now - long_window`. -/
def SmartHealthCheck.cleanup_old_entries (hs : SmartHealthCheck) (now : ℚ) :
    SmartHealthCheck :=
  { hs with
    detection_history :=
      hs.detection_history.filter (fun e => decide (now - hs.long_window < e.1))
    error_history :=
      hs.error_history.filter (fun e => decide (now - hs.long_window < e.1)) }

/-- `SmartHealthCheck.record_detection`. -/
def SmartHealthCheck.record_detection (hs : SmartHealthCheck) (now : ℚ)
    (success : Bool) (confidence : ℚ) (error_type : Option String) :
    SmartHealthCheck :=
  let hs' :=
    if success then
      { hs with detection_history := hs.detection_history ++ [(now, true, confidence)] }
    else
      { hs with
        detection_history := hs.detection_history ++ [(now, false, 0)]
        error_history :=
          match error_type with
          | some et => hs.error_history ++ [(now, et)]
          | none => hs.error_history }
  hs'.cleanup_old_entries now

/-- `SmartHealthCheck._analyze_window`: 0.7 × success rate + 0.3 × average
confidence of the successes, or 1.0 when the window holds no samples. -/
def analyze_window (hist : List (ℚ × Bool × ℚ)) (since : ℚ) : ℚ :=
  let recent := hist.filter (fun e => decide (since ≤ e.1))
  if recent.isEmpty then 1
  else
    let total : ℚ := recent.length
    let successes := recent.filter (fun e => e.2.1)
    let successful : ℕ := successes.length
    let avg_confidence : ℚ :=
      (successes.foldl (fun acc e => acc + e.2.2) 0) / max 1 (successful : ℚ)
    let success_rate : ℚ := (successful : ℚ) / total
    let confidence_factor : ℚ := if 0 < successful then avg_confidence else 0
    success_rate * (7/10) + confidence_factor * (3/10)

/-- `SmartHealthCheck.get_health_score`: 0.5 × short + 0.3 × medium +
0.2 × long window score. -/
def SmartHealthCheck.get_health_score (hs : SmartHealthCheck) (now : ℚ) : ℚ :=
  let short_score := analyze_window hs.detection_history (now - hs.short_window)
  let medium_score := analyze_window hs.detection_history (now - hs.medium_window)
  let long_score := analyze_window hs.detection_history (now - hs.long_window)
  short_score * (1/2) + medium_score * (3/10) + long_score * (1/5)

/-- `SmartHealthCheck.should_fallback`: health score below 0.3, or strictly
more than 5 error samples inside the short window. -/
def SmartHealthCheck.should_fallback (hs : SmartHealthCheck) (now : ℚ) : Bool :=
  if hs.get_health_score now < 3/10 then true
  else
    decide
      (5 < (hs.error_history.filter
        (fun e => decide (now - hs.short_window < e.1))).length)

/-- `SmartHealthCheck.get_adaptive_threshold`. -/
def SmartHealthCheck.get_adaptive_threshold (hs : SmartHealthCheck) (now : ℚ) : ℚ :=
  if hs.get_health_score now < 1/2 then HIGH_CONFIDENCE
  else if hs.get_health_score now < 7/10 then MEDIUM_CONFIDENCE
  else LOW_CONFIDENCE

/-- The health-recording step of `ActivityDetector._on_process_detected` on
its non-exception path: whatever `detect_activity` returned, record a
successful attempt whose confidence is the activity's confidence, or 0.0 on
no-match. -/
def on_process_detected_record (hs : SmartHealthCheck) (now : ℚ)
    (result : Option DetectedActivity) : SmartHealthCheck :=
  hs.record_detection now true
    (match result with
     | some activity => activity.confidence
     | none => 0)
    none

/-! ### The privacy state machine (`PrivacyStateManager`) -/

/-- `PrivacyState` enum from privacy_state_manager.py. -/
inductive PrivacyState
  | startup
  | downloads_active
  | activity_detected
  | strict
  | emergency_block
deriving DecidableEq, Repr

/-- The download-protection collaborator's answer
(`PrivacyStateManager.get_download_status`). -/
structure DownloadStatus where
  downloads_protected : Bool
  active : Bool
deriving DecidableEq, Repr

/-- The fields of `PrivacyStateManager.get_activity_status` that
`update_state` consumes. -/
structure ActivityStatus where
  has_active_activities : Bool
  has_high_confidence_activity : Bool
  system_healthy : Bool
deriving DecidableEq, Repr

/-- `PrivacyStateManager.get_activity_status` on its non-error path with an
initialized detector: active iff the table is non-empty, high-confidence iff
some entry reaches the configured threshold, healthy iff the health score
exceeds 0.5 and no fallback is recommended. -/
def get_activity_status (active_activities : List DetectedActivity)
    (confidence_threshold : ℚ) (health_score : ℚ) (should_fb : Bool) :
    ActivityStatus :=
  { has_active_activities := decide (0 < active_activities.length)
    has_high_confidence_activity :=
      decide (0 < (active_activities.filter
        (fun a => decide (confidence_threshold ≤ a.confidence))).length)
    system_healthy := decide ((1:ℚ)/2 < health_score) && !should_fb }

/-- The state-transition core of `PrivacyStateManager.update_state`.
`strict_ready` is the answer of `should_transition_to_strict()` (uptime,
readiness probe and download-protection checks, all external signals). -/
def update_state (s : PrivacyState) (download_status : DownloadStatus)
    (activity_status : ActivityStatus) (strict_ready : Bool) : PrivacyState :=
  match s with
  | .startup =>
    if download_status.active then .downloads_active
    else if activity_status.has_high_confidence_activity then .activity_detected
    else if strict_ready then .strict
    else .startup
  | .downloads_active =>
    if !download_status.downloads_protected then
      if activity_status.has_high_confidence_activity then .activity_detected
      else .strict
    else .downloads_active
  | .activity_detected =>
    if download_status.active then .downloads_active
    else if !activity_status.has_active_activities then
      if activity_status.system_healthy then .strict
      else .activity_detected
    else .activity_detected
  | .strict =>
    if download_status.active then .downloads_active
    else if activity_status.has_high_confidence_activity then .activity_detected
    else .strict
  | .emergency_block => .emergency_block

/-- `update_state` calls `apply_iptables_rules()` exactly when the state
changed (`old_state != self.current_state`). -/
def update_state_applies_rules (s : PrivacyState)
    (download_status : DownloadStatus) (activity_status : ActivityStatus)
    (strict_ready : Bool) : Bool :=
  decide (update_state s download_status activity_status strict_ready ≠ s)

/-- `PrivacyStateManager.set_emergency_block`: the explicit external command,
which overwrites the state unconditionally. -/
def set_emergency_block (_s : PrivacyState) : PrivacyState := .emergency_block

/-! ### State persistence (`save_state` / `load_state`) -/

/-- The data `PrivacyStateManager.save_state` writes to the state file. -/
structure SavedState where
  state : PrivacyState
  timestamp : ℚ
  startup_time : ℚ
deriving DecidableEq, Repr

/-- `PrivacyStateManager.save_state` (the config snapshot it also writes is
not read back into the state decision). -/
def save_state (current_state : PrivacyState) (now : ℚ)
    (startup_time : ℚ) : SavedState :=
  { state := current_state, timestamp := now, startup_time := startup_time }

/-- `PrivacyStateManager.load_state` on a fresh manager (whose constructor
set `current_state = STARTUP`): restore the saved state only when the saved
timestamp is younger than 3600 seconds, else keep Startup. -/
def load_state (saved : Option SavedState) (now : ℚ) : PrivacyState :=
  match saved with
  | none => .startup
  | some sd => if now - sd.timestamp < 3600 then sd.state else .startup

/-! ### Process lineage (`ProcessTree.get_lineage`) -/

/-- The while-loop of `ProcessTree.get_lineage`: walk parent links from
`current_pid`, appending each tracked snapshot, stopping at the container
init pid, at an untracked pid, or once more than 50 entries accumulated.
The loop appends an element on every iteration and stops no later than at
length 51, so fuel 52 makes the recursion total without changing behavior. -/
def get_lineage_loop (processes : Int → Option ProcessInfo)
    (container_init_pid : Int) :
    Nat → Int → List ProcessInfo → List ProcessInfo
  | 0, _, lineage => lineage
  | fuel + 1, current_pid, lineage =>
    if current_pid = container_init_pid then lineage
    else
      match processes current_pid with
      | none => lineage
      | some proc_info =>
        let lineage' := lineage ++ [proc_info]
        if 50 < lineage'.length then lineage'
        else get_lineage_loop processes container_init_pid fuel proc_info.ppid lineage'

/-- `ProcessTree.get_lineage`. -/
def get_lineage (processes : Int → Option ProcessInfo)
    (container_init_pid pid : Int) : List ProcessInfo :=
  get_lineage_loop processes container_init_pid 52 pid []

/-- Walking parent links from a pid, collecting up to `n` tracked snapshots
and stopping at the container init pid: the closed-form of the lineage
loop. -/
def parent_chain (processes : Int → Option ProcessInfo)
    (container_init_pid : Int) : Nat → Int → List ProcessInfo
  | 0, _ => []
  | n + 1, current_pid =>
    if current_pid = container_init_pid then []
    else
      match processes current_pid with
      | none => []
      | some proc_info =>
        proc_info :: parent_chain processes container_init_pid n proc_info.ppid

/-- Consecutive lineage entries are linked by parent pids. -/
def chain_linked (processes : Int → Option ProcessInfo) :
    List ProcessInfo → Prop
  | [] => True
  | [_] => True
  | a :: b :: t => processes a.ppid = some b ∧ chain_linked processes (b :: t)

/-! ### Concrete processes and states used by the scenario claims -/

/-- A regex oracle for concrete scenarios; never consulted, because no
default pattern carries a "regex:" rule. -/
def rx_false : String → String → Bool := fun _ _ => false

/-- The pip-install scenario process (command `pip`, argv
`["pip","install","torch"]`, cwd `/workspace`). -/
def pip_proc : ProcessInfo :=
  { pid := 99999, ppid := 1, command := "pip"
    cmdline := ["pip", "install", "torch"], cwd := "/workspace"
    start_time := 0, uid := 0, gid := 0 }

/-- The conda interpreter-invoked pip scenario process. -/
def conda_pip_proc : ProcessInfo :=
  { pid := 6747, ppid := 1, command := "/opt/conda/bin/python3.11"
    cmdline := ["/opt/conda/bin/python3.11", "/opt/conda/bin/pip",
                "install", "tensorflow"]
    cwd := "/workspace", start_time := 0, uid := 0, gid := 0 }

/-- A process matching no default pattern. -/
def ls_proc : ProcessInfo :=
  { pid := 4242, ppid := 1, command := "ls"
    cmdline := ["ls"], cwd := "/root"
    start_time := 0, uid := 0, gid := 0 }

/-- Example process tree, root snapshot. -/
def snap1 : ProcessInfo :=
  { pid := 1, ppid := 0, command := "init", cmdline := ["init"], cwd := "/"
    start_time := 0, uid := 0, gid := 0 }

/-- Example process tree, shell under the root. -/
def snap2 : ProcessInfo :=
  { pid := 2, ppid := 1, command := "bash", cmdline := ["bash"], cwd := "/root"
    start_time := 0, uid := 0, gid := 0 }

/-- Example process tree, pip under the shell. -/
def snap3 : ProcessInfo :=
  { pid := 3, ppid := 2, command := "pip", cmdline := ["pip", "install", "torch"]
    cwd := "/workspace", start_time := 0, uid := 0, gid := 0 }

/-- Example process table: container init 1, shell 2, pip 3. -/
def ex_procs : Int → Option ProcessInfo := fun k =>
  if k = 1 then some snap1
  else if k = 2 then some snap2
  else if k = 3 then some snap3
  else none

/-- A health monitor that saw six errors in the short window before t=1000
and no detection samples. -/
def health_six_errors : SmartHealthCheck :=
  { short_window := 300, medium_window := 900, long_window := 3600
    detection_history := []
    error_history :=
      [(900, "e1"), (910, "e2"), (920, "e3"), (930, "e4"), (940, "e5"), (950, "e6")] }

/-- The same monitor with only five errors in the short window. -/
def health_five_errors : SmartHealthCheck :=
  { short_window := 300, medium_window := 900, long_window := 3600
    detection_history := []
    error_history :=
      [(900, "e1"), (910, "e2"), (920, "e3"), (930, "e4"), (940, "e5")] }

/-! ### Theorems -/

/-- C2: if every command rule of a pattern fails against the process command
and the interpreter exemption does not apply, `match` returns no-match,
whatever the argument, cwd, ancestor and modifier rules would say. -/
theorem C2_command_match_mandatory (rx : String → String → Bool)
    (pat : ActivityPattern) (proc : ProcessInfo) (lineage : List ProcessInfo)
    (hcmd : ∀ p ∈ pat.command_patterns, matches_pattern rx p proc.command = false)
    (hex : pat.interpreter_exemption rx proc = false) :
    pat.match_proc rx proc lineage = none := by
  have hloop : pat.command_loop_match rx proc = false := by
    simp only [ActivityPattern.command_loop_match, List.any_eq_false]
    intro p hp
    simp [hcmd p hp]
  simp [ActivityPattern.match_proc, hloop, hex]

lemma get_policy_action_mono {c c' : ℚ} (h : c ≤ c') :
    policy_rank (get_policy_action c) ≤ policy_rank (get_policy_action c') := by
  unfold get_policy_action HIGH_CONFIDENCE MEDIUM_CONFIDENCE LOW_CONFIDENCE
    SUSPICIOUS_THRESHOLD at *
  split_ifs <;> simp [policy_rank] <;> linarith

/-- C3: on [0,1] the confidence-to-policy map is a monotone step function with
breakpoints exactly at 0.9, 0.7, 0.5, 0.3: ≥0.9 gives allow_unrestricted,
[0.7,0.9) gives allow_with_monitoring, [0.5,0.7) gives strict_allowlist,
[0.3,0.5) gives emergency_review, and <0.3 gives block_all. -/
theorem C3_policy_step_function (c : ℚ) (h0 : 0 ≤ c) (h1 : c ≤ 1) :
    (get_policy_action c = .allow_unrestricted ↔ 9/10 ≤ c) ∧
    (get_policy_action c = .allow_with_monitoring ↔ 7/10 ≤ c ∧ c < 9/10) ∧
    (get_policy_action c = .strict_allowlist ↔ 1/2 ≤ c ∧ c < 7/10) ∧
    (get_policy_action c = .emergency_review ↔ 3/10 ≤ c ∧ c < 1/2) ∧
    (get_policy_action c = .block_all ↔ c < 3/10) ∧
    (∀ c', c ≤ c' →
      policy_rank (get_policy_action c) ≤ policy_rank (get_policy_action c')) := by
  refine ⟨?_, ?_, ?_, ?_, ?_, fun c' h => get_policy_action_mono h⟩ <;>
    unfold get_policy_action HIGH_CONFIDENCE MEDIUM_CONFIDENCE LOW_CONFIDENCE
      SUSPICIOUS_THRESHOLD <;>
    split_ifs <;> simp_all <;>
      first
        | linarith
        | (intro hx; linarith)
        | (constructor <;> intro hx <;> linarith)

/-- Witness for C3 at the concrete confidence 0.75. -/
theorem C3_policy_step_function_witness :
    (0 : ℚ) ≤ 3/4 ∧ (3/4 : ℚ) ≤ 1 ∧
    ((get_policy_action (3/4) = .allow_unrestricted ↔ 9/10 ≤ (3/4 : ℚ)) ∧
     (get_policy_action (3/4) = .allow_with_monitoring ↔
        7/10 ≤ (3/4 : ℚ) ∧ (3/4 : ℚ) < 9/10) ∧
     (get_policy_action (3/4) = .strict_allowlist ↔
        1/2 ≤ (3/4 : ℚ) ∧ (3/4 : ℚ) < 7/10) ∧
     (get_policy_action (3/4) = .emergency_review ↔
        3/10 ≤ (3/4 : ℚ) ∧ (3/4 : ℚ) < 1/2) ∧
     (get_policy_action (3/4) = .block_all ↔ (3/4 : ℚ) < 3/10) ∧
     (∀ c', (3/4 : ℚ) ≤ c' →
       policy_rank (get_policy_action (3/4)) ≤ policy_rank (get_policy_action c'))) :=
  ⟨by norm_num, by norm_num,
    C3_policy_step_function (3/4) (by norm_num) (by norm_num)⟩

/-- Witness for C2: the `git_clone` pattern rejects the `ls` process. -/
theorem C2_command_match_mandatory_witness :
    (∀ p ∈ git_clone_pattern.command_patterns,
      matches_pattern rx_false p ls_proc.command = false) ∧
    git_clone_pattern.interpreter_exemption rx_false ls_proc = false ∧
    git_clone_pattern.match_proc rx_false ls_proc [] = none :=
  ⟨by decide, by decide,
    C2_command_match_mandatory rx_false git_clone_pattern ls_proc []
      (by decide) (by decide)⟩

/-- C1 (evaluation at the claimed scenario): for command `pip`, argv
`["pip","install","torch"]`, cwd `/workspace`, empty lineage and a healthy
health monitor, the classifier yields the pip_install activity with
confidence 0.63 — below the claimed 0.8 — and policy strict_allowlist,
strictly less permissive than allow_with_monitoring; the allowed domains do
include the package-index hosts. -/
theorem C1_pip_install_scenario_eval (rx : String → String → Bool) :
    detect_activity rx default_patterns false 0 pip_proc [] =
      some { activity_type := .pip_install
             confidence := 63/100
             policy_action := .strict_allowlist
             process_info := pip_proc
             timestamp := 0
             duration_estimate := 180
             allowed_domains := ["pypi.org", "pypi.python.org", "files.pythonhosted.org"]
             risk_factors := ["running_as_root"] } ∧
    (63/100 : ℚ) < 8/10 ∧
    policy_rank .strict_allowlist < policy_rank .allow_with_monitoring ∧
    "pypi.org" ∈ pip_install_pattern.allowed_domains := by
  refine ⟨?_, by norm_num, by simp [policy_rank], by simp [pip_install_pattern]⟩
  have hm1 : pip_install_pattern.match_proc rx pip_proc [] =
      some (min 1 (max 0 ((0 + 3/10 + 3/10 + 1/10) * (9/10 : ℚ)))) := rfl
  have e : (min 1 (max 0 ((0 + 3/10 + 3/10 + 1/10) * (9/10 : ℚ)))) = 63/100 := by
    norm_num
  rw [e] at hm1
  have hm2 : git_clone_pattern.match_proc rx pip_proc [] = none := rfl
  have hm3 : extension_update_pattern.match_proc rx pip_proc [] = none := rfl
  have hty : pip_install_pattern.activity_type = ActivityType.pip_install := rfl
  have hb : best_pattern_fold rx default_patterns pip_proc [] =
      (some .pip_install, 63/100, some pip_install_pattern) := by
    norm_num [best_pattern_fold, default_patterns, hm1, hm2, hm3, hty]
  have hsudo : contains_chars ("sudo".toList) (pip_proc.full_cmdline.toList) = false := by
    decide
  have huid : pip_proc.uid = 0 := rfl
  have hpol : get_policy_action (63/100) = .strict_allowlist := by
    norm_num [get_policy_action, HIGH_CONFIDENCE, MEDIUM_CONFIDENCE, LOW_CONFIDENCE,
      SUSPICIOUS_THRESHOLD]
  simp only [detect_activity, hb]
  norm_num [hpol, hsudo, huid]
  exact ⟨rfl, rfl, rfl⟩

/-- C4: for command `/opt/conda/bin/python3.11` with pip and install in the
argv, the first command-rule loop of the default pip_install pattern fails
but the interpreter exemption fires, the pattern returns a confidence
(0.63) instead of no-match, and the classifier labels the process a
pip_install activity. -/
theorem C4_interpreter_exemption_fires (rx : String → String → Bool) :
    pip_install_pattern.command_loop_match rx conda_pip_proc = false ∧
    pip_install_pattern.interpreter_exemption rx conda_pip_proc = true ∧
    pip_install_pattern.match_proc rx conda_pip_proc [] = some (63/100) ∧
    detect_activity rx default_patterns false 0 conda_pip_proc [] =
      some { activity_type := .pip_install
             confidence := 63/100
             policy_action := .strict_allowlist
             process_info := conda_pip_proc
             timestamp := 0
             duration_estimate := 180
             allowed_domains := ["pypi.org", "pypi.python.org", "files.pythonhosted.org"]
             risk_factors := ["running_as_root"] } := by
  have hm1 : pip_install_pattern.match_proc rx conda_pip_proc [] =
      some (min 1 (max 0 ((0 + 3/10 + 3/10 + 1/10) * (9/10 : ℚ)))) := rfl
  have e : (min 1 (max 0 ((0 + 3/10 + 3/10 + 1/10) * (9/10 : ℚ)))) = 63/100 := by
    norm_num
  rw [e] at hm1
  refine ⟨rfl, rfl, hm1, ?_⟩
  have hm2 : git_clone_pattern.match_proc rx conda_pip_proc [] = none := rfl
  have hm3 : extension_update_pattern.match_proc rx conda_pip_proc [] =
      some (min 1 (max 0 ((0 + 3/10) * (17/20 : ℚ)))) := rfl
  have e3 : (min 1 (max 0 ((0 + 3/10) * (17/20 : ℚ)))) = 51/200 := by norm_num
  rw [e3] at hm3
  have hty : pip_install_pattern.activity_type = ActivityType.pip_install := rfl
  have hb : best_pattern_fold rx default_patterns conda_pip_proc [] =
      (some .pip_install, 63/100, some pip_install_pattern) := by
    norm_num [best_pattern_fold, default_patterns, hm1, hm2, hm3, hty]
  have hsudo : contains_chars ("sudo".toList) (conda_pip_proc.full_cmdline.toList)
      = false := by decide
  have huid : conda_pip_proc.uid = 0 := rfl
  have hpol : get_policy_action (63/100) = .strict_allowlist := by
    norm_num [get_policy_action, HIGH_CONFIDENCE, MEDIUM_CONFIDENCE, LOW_CONFIDENCE,
      SUSPICIOUS_THRESHOLD]
  simp only [detect_activity, hb]
  norm_num [hpol, hsudo, huid]
  exact ⟨rfl, rfl, rfl⟩

/-- C5: a polled update in ActivityDetected with no active downloads, an
empty active-activity table and an unhealthy activity status (fallback
recommended or health score not above 0.5) keeps the state ActivityDetected
and does not trigger a rule re-application. -/
theorem C5_stay_activity_detected_when_unhealthy (dl : DownloadStatus)
    (threshold health_score : ℚ) (fb : Bool) (strict_ready : Bool)
    (hdl : dl.active = false)
    (hunhealthy : fb = true ∨ health_score ≤ 1/2) :
    update_state .activity_detected dl
        (get_activity_status [] threshold health_score fb) strict_ready =
      .activity_detected ∧
    update_state_applies_rules .activity_detected dl
        (get_activity_status [] threshold health_score fb) strict_ready = false := by
  have hsys : (get_activity_status [] threshold health_score fb).system_healthy
      = false := by
    rcases hunhealthy with h | h
    · simp [get_activity_status, h]
    · simp only [get_activity_status]
      rw [decide_eq_false (by linarith : ¬((1:ℚ)/2 < health_score))]
      simp
  have hact : (get_activity_status [] threshold health_score fb).has_active_activities
      = false := by
    simp [get_activity_status]
  have hu : update_state .activity_detected dl
      (get_activity_status [] threshold health_score fb) strict_ready =
      .activity_detected := by
    simp [update_state, hdl, hact, hsys]
  exact ⟨hu, by simp [update_state_applies_rules, hu]⟩

/-- Witness for C5: concrete inputs with fallback recommended. -/
theorem C5_stay_activity_detected_when_unhealthy_witness :
    ({ downloads_protected := false, active := false } : DownloadStatus).active
        = false ∧
    (true = true ∨ (1 : ℚ) ≤ 1/2) ∧
    (update_state .activity_detected
        { downloads_protected := false, active := false }
        (get_activity_status [] (7/10) 1 true) true = .activity_detected ∧
      update_state_applies_rules .activity_detected
        { downloads_protected := false, active := false }
        (get_activity_status [] (7/10) 1 true) true = false) :=
  ⟨rfl, Or.inl rfl,
    C5_stay_activity_detected_when_unhealthy
      { downloads_protected := false, active := false }
      (7/10) 1 true true rfl (Or.inl rfl)⟩

/-- C6: the polled update reaches EmergencyBlock exactly from EmergencyBlock
(it never enters it from another state and never leaves it); only the
explicit external command produces the state. -/
theorem C6_emergency_block_only_explicit (s : PrivacyState)
    (dl : DownloadStatus) (act : ActivityStatus) (strict_ready : Bool) :
    (update_state s dl act strict_ready = .emergency_block ↔
      s = .emergency_block) ∧
    set_emergency_block s = .emergency_block := by
  refine ⟨?_, rfl⟩
  cases s <;> simp [update_state] <;> split_ifs <;> simp

/-- C7: strictly more than five error samples inside the short window force
`should_fallback` to true; with exactly five (and an empty detection
history, so the health score stays at its healthy default) it is false. -/
theorem C7_error_burst_threshold (hs : SmartHealthCheck) (now : ℚ) :
    (5 < (hs.error_history.filter
        (fun e => decide (now - hs.short_window < e.1))).length →
      hs.should_fallback now = true) ∧
    (hs.detection_history = [] →
      (hs.error_history.filter
        (fun e => decide (now - hs.short_window < e.1))).length = 5 →
      hs.should_fallback now = false) := by
  constructor
  · intro h
    unfold SmartHealthCheck.should_fallback
    split
    · rfl
    · simpa using h
  · intro hdet h5
    have hscore : hs.get_health_score now = 1 := by
      unfold SmartHealthCheck.get_health_score
      rw [hdet]
      simp [analyze_window]
      norm_num
    unfold SmartHealthCheck.should_fallback
    rw [hscore, if_neg (by norm_num)]
    simp [h5]

/-- Witness for C7: six errors at t ∈ [900,950] trip the fallback at t=1000,
five do not. -/
theorem C7_error_burst_threshold_witness :
    (5 < (health_six_errors.error_history.filter
        (fun e => decide ((1000 : ℚ) - health_six_errors.short_window < e.1))).length ∧
      health_six_errors.should_fallback 1000 = true) ∧
    (health_five_errors.detection_history = [] ∧
      (health_five_errors.error_history.filter
        (fun e => decide ((1000 : ℚ) - health_five_errors.short_window < e.1))).length
          = 5 ∧
      health_five_errors.should_fallback 1000 = false) := by
  have h6 : 5 < (health_six_errors.error_history.filter
      (fun e => decide ((1000 : ℚ) - health_six_errors.short_window < e.1))).length := by
    norm_num [health_six_errors, List.filter]
  have h5 : (health_five_errors.error_history.filter
      (fun e => decide ((1000 : ℚ) - health_five_errors.short_window < e.1))).length
        = 5 := by
    norm_num [health_five_errors, List.filter]
  exact ⟨⟨h6, (C7_error_burst_threshold health_six_errors 1000).1 h6⟩,
    ⟨rfl, h5, (C7_error_burst_threshold health_five_errors 1000).2 rfl h5⟩⟩

/-- Counterexample to C8: at a concrete no-match process, the recording step
adds a sample flagged as success (with confidence 0.0) and leaves the error
history empty — the attempt is not recorded as a failure sample. -/
theorem C8_no_match_counterexample :
    detect_activity rx_false default_patterns false 1000 ls_proc [] = none ∧
    (on_process_detected_record SmartHealthCheck.init 1000
        (detect_activity rx_false default_patterns false 1000 ls_proc [])).detection_history
      = [(1000, true, 0)] ∧
    (on_process_detected_record SmartHealthCheck.init 1000
        (detect_activity rx_false default_patterns false 1000 ls_proc [])).error_history
      = [] := by
  refine ⟨rfl, ?_, ?_⟩ <;>
    · rw [show detect_activity rx_false default_patterns false 1000 ls_proc [] = none
        from rfl]
      norm_num [on_process_detected_record, SmartHealthCheck.record_detection,
        SmartHealthCheck.cleanup_old_entries, SmartHealthCheck.init, List.filter]

/-- C8 amended: a classification attempt that yields no match (or a best
confidence below the floor, so `detect_activity` returns none) is recorded
to the health monitor as a SUCCESS sample with confidence 0.0; the error
history only gets pruned, and failure samples arise solely from the
exception path. -/
theorem C8_no_match_recorded_as_success (rx : String → String → Bool)
    (patterns : List ActivityPattern) (fb : Bool) (hs : SmartHealthCheck)
    (now : ℚ) (proc : ProcessInfo) (lineage : List ProcessInfo)
    (hnone : detect_activity rx patterns fb now proc lineage = none) :
    on_process_detected_record hs now
        (detect_activity rx patterns fb now proc lineage) =
      hs.record_detection now true 0 none ∧
    (on_process_detected_record hs now
        (detect_activity rx patterns fb now proc lineage)).detection_history =
      (hs.detection_history ++ [(now, true, 0)]).filter
        (fun e => decide (now - hs.long_window < e.1)) ∧
    (on_process_detected_record hs now
        (detect_activity rx patterns fb now proc lineage)).error_history =
      hs.error_history.filter (fun e => decide (now - hs.long_window < e.1)) := by
  rw [hnone]
  refine ⟨rfl, ?_, ?_⟩ <;>
    simp [on_process_detected_record, SmartHealthCheck.record_detection,
      SmartHealthCheck.cleanup_old_entries]

/-- Witness for C8 amended, at the concrete `ls` process. -/
theorem C8_no_match_recorded_as_success_witness :
    detect_activity rx_false default_patterns false 1000 ls_proc [] = none ∧
    (on_process_detected_record SmartHealthCheck.init 1000
        (detect_activity rx_false default_patterns false 1000 ls_proc []) =
      SmartHealthCheck.init.record_detection 1000 true 0 none ∧
    (on_process_detected_record SmartHealthCheck.init 1000
        (detect_activity rx_false default_patterns false 1000 ls_proc [])).detection_history =
      (SmartHealthCheck.init.detection_history ++ [(1000, true, 0)]).filter
        (fun e => decide ((1000 : ℚ) - SmartHealthCheck.init.long_window < e.1)) ∧
    (on_process_detected_record SmartHealthCheck.init 1000
        (detect_activity rx_false default_patterns false 1000 ls_proc [])).error_history =
      SmartHealthCheck.init.error_history.filter
        (fun e => decide ((1000 : ℚ) - SmartHealthCheck.init.long_window < e.1))) :=
  ⟨rfl, C8_no_match_recorded_as_success rx_false default_patterns false
    SmartHealthCheck.init 1000 ls_proc [] rfl⟩

/-- C9: saving the state and loading it on a fresh manager restores the
saved state when the saved timestamp is younger than one hour, and yields
Startup when it is older than one hour. -/
theorem C9_persistence_round_trip (s : PrivacyState)
    (save_time load_time startup_time : ℚ) :
    (load_time - save_time < 3600 →
      load_state (some (save_state s save_time startup_time)) load_time = s) ∧
    (3600 < load_time - save_time →
      load_state (some (save_state s save_time startup_time)) load_time = .startup) := by
  constructor
  · intro h
    simp [load_state, save_state, h]
  · intro h
    simp only [load_state, save_state]
    rw [if_neg (by linarith)]

/-- Witness for C9: a fresh load 100s after saving Strict restores Strict,
a load 5000s after saving Strict starts over at Startup. -/
theorem C9_persistence_round_trip_witness :
    ((100 : ℚ) - 0 < 3600 ∧
      load_state (some (save_state .strict 0 0)) 100 = .strict) ∧
    ((3600 : ℚ) < 5000 - 0 ∧
      load_state (some (save_state .strict 0 0)) 5000 = .startup) :=
  ⟨⟨by norm_num, (C9_persistence_round_trip .strict 0 100 0).1 (by norm_num)⟩,
    ⟨by norm_num, (C9_persistence_round_trip .strict 0 5000 0).2 (by norm_num)⟩⟩

lemma get_lineage_loop_eq (processes : Int → Option ProcessInfo) (init : Int) :
    ∀ (fuel n : ℕ) (current : Int) (acc : List ProcessInfo),
      acc.length + n = 51 → 1 ≤ n → n + 1 ≤ fuel →
      get_lineage_loop processes init fuel current acc =
        acc ++ parent_chain processes init n current := by
  intro fuel
  induction fuel with
  | zero => intro n current acc h1 h2 h3; omega
  | succ f ih =>
    intro n current acc h1 h2 h3
    obtain ⟨k, rfl⟩ : ∃ k, n = k + 1 := ⟨n - 1, by omega⟩
    rw [get_lineage_loop, parent_chain]
    by_cases hc : current = init
    · simp [hc]
    · simp only [if_neg hc]
      cases hp : processes current with
      | none => simp
      | some p =>
        simp only []
        by_cases hlen : 50 < (acc ++ [p]).length
        · have hk : k = 0 := by
            simp only [List.length_append, List.length_cons, List.length_nil] at hlen
            omega
          subst hk
          rw [if_pos hlen]
          simp [parent_chain]
        · simp only [if_neg hlen]
          rw [ih k p.ppid (acc ++ [p])
            (by simp only [List.length_append, List.length_cons, List.length_nil]; omega)
            (by simp only [List.length_append, List.length_cons, List.length_nil] at hlen;
                omega)
            (by omega)]
          simp

lemma get_lineage_eq_parent_chain (processes : Int → Option ProcessInfo)
    (init pid : Int) :
    get_lineage processes init pid = parent_chain processes init 51 pid := by
  have h := get_lineage_loop_eq processes init 52 51 pid []
    (by simp) (by norm_num) (by norm_num)
  simpa [get_lineage] using h

lemma parent_chain_length (processes : Int → Option ProcessInfo) (init : Int) :
    ∀ (n : ℕ) (cur : Int), (parent_chain processes init n cur).length ≤ n := by
  intro n
  induction n with
  | zero => intro cur; simp [parent_chain]
  | succ m ih =>
    intro cur
    rw [parent_chain]
    by_cases hc : cur = init
    · simp [hc]
    · simp only [if_neg hc]
      cases hp : processes cur with
      | none => simp
      | some p => simpa using ih p.ppid

lemma parent_chain_avoids_init (processes : Int → Option ProcessInfo) (init : Int)
    (hwf : ∀ k p, processes k = some p → p.pid = k) :
    ∀ (n : ℕ) (cur : Int), ∀ q ∈ parent_chain processes init n cur, q.pid ≠ init := by
  intro n
  induction n with
  | zero => intro cur q hq; simp [parent_chain] at hq
  | succ m ih =>
    intro cur q hq
    rw [parent_chain] at hq
    by_cases hc : cur = init
    · simp [hc] at hq
    · simp only [if_neg hc] at hq
      cases hp : processes cur with
      | none => rw [hp] at hq; simp at hq
      | some p =>
        rw [hp] at hq
        simp only [List.mem_cons] at hq
        rcases hq with rfl | hq
        · rw [hwf cur q hp]; exact hc
        · exact ih p.ppid q hq

lemma parent_chain_first (processes : Int → Option ProcessInfo) (init : Int) :
    ∀ (n : ℕ) (x : Int) (b : ProcessInfo) (t : List ProcessInfo),
      parent_chain processes init n x = b :: t → processes x = some b := by
  intro n x b t h
  cases n with
  | zero => simp [parent_chain] at h
  | succ m =>
    rw [parent_chain] at h
    by_cases hc : x = init
    · simp [hc] at h
    · simp only [if_neg hc] at h
      cases hp : processes x with
      | none => rw [hp] at h; simp at h
      | some p => rw [hp] at h; simp at h; rw [h.1]

lemma parent_chain_linked (processes : Int → Option ProcessInfo) (init : Int) :
    ∀ (n : ℕ) (x : Int), chain_linked processes (parent_chain processes init n x) := by
  intro n
  induction n with
  | zero => intro x; simp [parent_chain, chain_linked]
  | succ m ih =>
    intro x
    rw [parent_chain]
    by_cases hc : x = init
    · simp [hc, chain_linked]
    · simp only [if_neg hc]
      cases hp : processes x with
      | none => simp [chain_linked]
      | some p =>
        simp only []
        cases ht : parent_chain processes init m p.ppid with
        | nil => simp [chain_linked]
        | cons b t =>
          have hfirst := parent_chain_first processes init m p.ppid b t ht
          have hlink := ih p.ppid
          rw [ht] at hlink
          exact ⟨hfirst, hlink⟩

/-- Counterexample to C10: in the concrete tree 1 ← 2 ← 3, the lineage of
pid 3 is `[snap3, snap2]` — it starts with pid 3's own snapshot, which the
claim says is not an element. -/
theorem C10_lineage_counterexample :
    get_lineage ex_procs 1 3 = [snap3, snap2] ∧
    snap3 ∈ get_lineage ex_procs 1 3 ∧ snap3.pid = 3 := by
  refine ⟨rfl, ?_, rfl⟩
  rw [show get_lineage ex_procs 1 3 = [snap3, snap2] from rfl]
  simp

/-- C10 amended: the lineage of a pid is the chain obtained by following
parent links starting from the pid itself: its first element is the pid's
own snapshot (when the pid is tracked and is not the container root),
consecutive entries are linked by parent pids, the container-root pid's
snapshot never appears (given pid-consistent table entries), and the length
is capped at 51 entries. -/
theorem C10_lineage_from_pid_itself (processes : Int → Option ProcessInfo)
    (init pid : Int)
    (hwf : ∀ k p, processes k = some p → p.pid = k) :
    get_lineage processes init pid = parent_chain processes init 51 pid ∧
    (∀ p, pid ≠ init → processes pid = some p →
      (get_lineage processes init pid).head? = some p) ∧
    (∀ q ∈ get_lineage processes init pid, q.pid ≠ init) ∧
    (get_lineage processes init pid).length ≤ 51 ∧
    chain_linked processes (get_lineage processes init pid) := by
  rw [get_lineage_eq_parent_chain]
  refine ⟨rfl, ?_, ?_, parent_chain_length processes init 51 pid,
    parent_chain_linked processes init 51 pid⟩
  · intro p hne hp
    rw [parent_chain, if_neg hne, hp]
    simp
  · exact parent_chain_avoids_init processes init hwf 51 pid

/-- Witness for C10 amended, on the concrete tree 1 ← 2 ← 3. -/
theorem C10_lineage_from_pid_itself_witness :
    (∀ k p, ex_procs k = some p → p.pid = k) ∧
    (get_lineage ex_procs 1 3 = parent_chain ex_procs 1 51 3 ∧
     (∀ p, (3 : Int) ≠ 1 → ex_procs 3 = some p →
       (get_lineage ex_procs 1 3).head? = some p) ∧
     (∀ q ∈ get_lineage ex_procs 1 3, q.pid ≠ 1) ∧
     (get_lineage ex_procs 1 3).length ≤ 51 ∧
     chain_linked ex_procs (get_lineage ex_procs 1 3)) := by
  have hwf : ∀ k p, ex_procs k = some p → p.pid = k := by
    intro k p h
    simp only [ex_procs] at h
    split_ifs at h with h1 h2 h3
    · cases h; rw [h1]; rfl
    · cases h; rw [h2]; rfl
    · cases h; rw [h3]; rfl
  exact ⟨hwf, C10_lineage_from_pid_itself ex_procs 1 3 hwf⟩
